import Mathlib

/-!
Shallow embedding of the typed property-key and accessor layer of the
coremidi crate (src/object.rs, src/properties.rs and src/properties/),
together with the external collaborators the spec names in section 6.

Conventions of the embedding:
- CFStringRef is an opaque CoreFoundation string reference.  The spec
  (sections 2 and 6) states that the subsystem guarantees distinct
  allocations for distinct logical keys, so each standard constant of each
  of the three value kinds is its own allocation, distinct across the three
  enumerations (section 4.5 notes the enumerations are disjoint).  A null
  reference and custom (owned) allocations are the other cases.
- Machine integers (OSStatus, SInt32) are modelled as Int; the one place a
  cast matters (the i32-to-u32 cast in Object::unique_id) takes an explicit
  mod 2^32.
- The four native primitives of section 6 are a record of pure functions
  over an abstract subsystem state; the fallible Rust functions return
  Except over the native status code.
-/

/-- CoreMIDI-defined constant property names that can be used to access
String values (src/properties/string.rs, StringProperty; the historical
revision src/properties.rs declares the identical enumeration). -/
inductive StringProperty where
  | Name
  | Manufacturer
  | Model
  | DriverOwner
  | DriverDeviceEditorApp
  | DisplayName
deriving DecidableEq, Fintype

/-- CoreMIDI-defined constant property names that can be used to access
i32 values (src/properties/integer.rs, IntegerProperty; the historical
revision src/properties.rs declares the identical enumeration). -/
inductive IntegerProperty where
  | DeviceId
  | UniqueId
  | ReceiveChannels
  | TransmitChannels
  | MaxSysExSpeed
  | AdvanceScheduleTimeMuSec
  | SingleRealtimeEntity
  | ConnectionUniqueId
  | DriverVersion
  | MaxRecieveChannels
  | MaxTransmitChannels
deriving DecidableEq, Fintype

/-- CoreMIDI-defined constant property names that can be used to access
bool values (src/properties/boolean.rs, BooleanProperty; the historical
revision src/properties.rs declares the identical enumeration). -/
inductive BooleanProperty where
  | IsEmbeddedEntity
  | IsBroadcast
  | Offline
  | Private
  | SupportsGeneralMIDI
  | SupportsMMC
  | CanRoute
  | ReceivesClock
  | ReceivesMTC
  | ReceivesNotes
  | ReceivesProgramChanges
  | ReceivesBankSelectMSB
  | ReceivesBankSelectLSB
  | TransmitsBankSelectMSB
  | TransmitsBankSelectLSB
  | TransmitsClock
  | TransmitsMTC
  | TransmitsNotes
  | TransmitsProgramChanges
  | PanDisruptsStereo
  | IsSampler
  | IsDrumMachine
  | IsMixer
  | IsEffectUnit
  | SupportsShowControl
deriving DecidableEq, Fintype

/-- Modelled from the spec: an opaque CoreFoundation string reference
(CFStringRef), the raw key type of the native primitives.  Per sections 2
and 6 the subsystem keeps one process-wide allocation per standard key
constant, distinct across the three value kinds, so the constants appear as
their own constructors.  A custom allocation carries the allocation id that
distinguishes independently-allocated strings together with its immutable
text content.  `null` is the null pointer. -/
inductive CFStringRef where
  | null
  | stringConst (p : StringProperty)
  | intConst (p : IntegerProperty)
  | boolConst (p : BooleanProperty)
  | custom (allocId : Nat) (content : String)
deriving DecidableEq

/-- Modelled from the spec: the visible text carried by each subsystem
constant (its "visible name", spec sections 4.2 and 8) is external data
that is not present in the sources, so it is an explicit parameter of the
embedding.  The subsystem guarantee that distinct logical keys are distinct
(sections 2 and 6) appears, where a claim needs it, as the hypothesis that
this assignment is injective within each kind and disjoint across kinds. -/
structure ConstantNames where
  stringName : StringProperty → String
  intName : IntegerProperty → String
  boolName : BooleanProperty → String

/-- The text content of a reference under a given assignment of constant
visible names: an owned custom allocation holds its allocated text, a
constant holds its visible name.  A `to_string()` style conversion reads
this content back. -/
def CFStringRef.text (env : ConstantNames) : CFStringRef → String
  | .null => ""
  | .stringConst p => env.stringName p
  | .intConst p => env.intName p
  | .boolConst p => env.boolName p
  | .custom _ s => s

def CFStringRef.is_null : CFStringRef → Bool
  | .null => true
  | _ => false

/-- An owned CoreFoundation string (CFString): an allocation id chosen
fresh by the allocator plus the immutable text it holds. -/
structure CFString where
  allocId : Nat
  content : String
deriving DecidableEq

/-- CFString::new allocates a fresh backing store holding the given text;
the embedding takes the fresh allocation id as an explicit argument. -/
def CFString.new (allocId : Nat) (s : String) : CFString :=
  ⟨allocId, s⟩

def CFString.as_concrete_TypeRef (s : CFString) : CFStringRef :=
  .custom s.allocId s.content

/-- Modelled from the spec: CFEqual, the subsystem equality primitive over
opaque key references that section 6 lists as an external collaborator.
Its code is in CoreFoundation, not in this repository.  For string
references it compares the carried text: spec section 4.5 says that for
the Custom path it "reduces to the subsystem's own string-equality
primitive", section 8 that two Custom keys built from equal strings behave
as equal under it, and section 9 that it falls "back to content equality
... for owned/custom strings"; the tests of src/properties/mod.rs (lines
364-372 and 394-402) rely on an owned "offline" string comparing equal to
the Offline constant.  On the standard constants, whose visible names are
pairwise distinct, content comparison coincides with reference identity
(section 4.1). -/
def CFEqual (env : ConstantNames) (key1 key2 : CFStringRef) : Bool :=
  key1.text env == key2.text env

/-- src/properties/mod.rs lines 17-23: the identity matcher.  Returns false
when either reference is null, otherwise delegates to CFEqual. -/
def match_property_keys (env : ConstantNames) (key1 key2 : CFStringRef) : Bool :=
  if key1.is_null || key2.is_null then false
  else CFEqual env key1 key2

/-- The `From<StringProperty> for CFStringRef` table of
src/properties/string.rs: each variant resolves to its process-wide
constant allocation. -/
def StringProperty.toCFStringRef : StringProperty → CFStringRef :=
  .stringConst

/-- The `From<IntegerProperty> for CFStringRef` table of
src/properties/integer.rs. -/
def IntegerProperty.toCFStringRef : IntegerProperty → CFStringRef :=
  .intConst

/-- The `From<BooleanProperty> for CFStringRef` table of
src/properties/boolean.rs. -/
def BooleanProperty.toCFStringRef : BooleanProperty → CFStringRef :=
  .boolConst

/-- The StandardProperty trait of src/properties/mod.rs: a closed
enumeration of standard keys, convertible into its raw constant
reference. -/
class StandardProperty (K : Type) where
  toCFStringRef : K → CFStringRef

instance : StandardProperty StringProperty := ⟨StringProperty.toCFStringRef⟩
instance : StandardProperty IntegerProperty := ⟨IntegerProperty.toCFStringRef⟩
instance : StandardProperty BooleanProperty := ⟨BooleanProperty.toCFStringRef⟩

/-- src/properties/string.rs StringProperty::try_from_constant_string_ref:
scans the enumeration in order with match_property_keys against each
constant (the convert_property_key_set macro of src/properties/mod.rs). -/
def StringProperty.try_from_constant_string_ref (env : ConstantNames)
    (key : CFStringRef) : Option StringProperty :=
  if match_property_keys env key StringProperty.Name.toCFStringRef then some .Name
  else if match_property_keys env key StringProperty.Manufacturer.toCFStringRef then some .Manufacturer
  else if match_property_keys env key StringProperty.Model.toCFStringRef then some .Model
  else if match_property_keys env key StringProperty.DriverOwner.toCFStringRef then some .DriverOwner
  else if match_property_keys env key StringProperty.DriverDeviceEditorApp.toCFStringRef then some .DriverDeviceEditorApp
  else if match_property_keys env key StringProperty.DisplayName.toCFStringRef then some .DisplayName
  else none

/-- src/properties/integer.rs IntegerProperty::try_from_constant_string_ref. -/
def IntegerProperty.try_from_constant_string_ref (env : ConstantNames)
    (key : CFStringRef) : Option IntegerProperty :=
  if match_property_keys env key IntegerProperty.DeviceId.toCFStringRef then some .DeviceId
  else if match_property_keys env key IntegerProperty.UniqueId.toCFStringRef then some .UniqueId
  else if match_property_keys env key IntegerProperty.ReceiveChannels.toCFStringRef then some .ReceiveChannels
  else if match_property_keys env key IntegerProperty.TransmitChannels.toCFStringRef then some .TransmitChannels
  else if match_property_keys env key IntegerProperty.MaxSysExSpeed.toCFStringRef then some .MaxSysExSpeed
  else if match_property_keys env key IntegerProperty.AdvanceScheduleTimeMuSec.toCFStringRef then some .AdvanceScheduleTimeMuSec
  else if match_property_keys env key IntegerProperty.SingleRealtimeEntity.toCFStringRef then some .SingleRealtimeEntity
  else if match_property_keys env key IntegerProperty.ConnectionUniqueId.toCFStringRef then some .ConnectionUniqueId
  else if match_property_keys env key IntegerProperty.DriverVersion.toCFStringRef then some .DriverVersion
  else if match_property_keys env key IntegerProperty.MaxRecieveChannels.toCFStringRef then some .MaxRecieveChannels
  else if match_property_keys env key IntegerProperty.MaxTransmitChannels.toCFStringRef then some .MaxTransmitChannels
  else none

/-- src/properties/boolean.rs BooleanProperty::try_from_constant_string_ref. -/
def BooleanProperty.try_from_constant_string_ref (env : ConstantNames)
    (key : CFStringRef) : Option BooleanProperty :=
  if match_property_keys env key BooleanProperty.IsEmbeddedEntity.toCFStringRef then some .IsEmbeddedEntity
  else if match_property_keys env key BooleanProperty.IsBroadcast.toCFStringRef then some .IsBroadcast
  else if match_property_keys env key BooleanProperty.Offline.toCFStringRef then some .Offline
  else if match_property_keys env key BooleanProperty.Private.toCFStringRef then some .Private
  else if match_property_keys env key BooleanProperty.SupportsGeneralMIDI.toCFStringRef then some .SupportsGeneralMIDI
  else if match_property_keys env key BooleanProperty.SupportsMMC.toCFStringRef then some .SupportsMMC
  else if match_property_keys env key BooleanProperty.CanRoute.toCFStringRef then some .CanRoute
  else if match_property_keys env key BooleanProperty.ReceivesClock.toCFStringRef then some .ReceivesClock
  else if match_property_keys env key BooleanProperty.ReceivesMTC.toCFStringRef then some .ReceivesMTC
  else if match_property_keys env key BooleanProperty.ReceivesNotes.toCFStringRef then some .ReceivesNotes
  else if match_property_keys env key BooleanProperty.ReceivesProgramChanges.toCFStringRef then some .ReceivesProgramChanges
  else if match_property_keys env key BooleanProperty.ReceivesBankSelectMSB.toCFStringRef then some .ReceivesBankSelectMSB
  else if match_property_keys env key BooleanProperty.ReceivesBankSelectLSB.toCFStringRef then some .ReceivesBankSelectLSB
  else if match_property_keys env key BooleanProperty.TransmitsBankSelectMSB.toCFStringRef then some .TransmitsBankSelectMSB
  else if match_property_keys env key BooleanProperty.TransmitsBankSelectLSB.toCFStringRef then some .TransmitsBankSelectLSB
  else if match_property_keys env key BooleanProperty.TransmitsClock.toCFStringRef then some .TransmitsClock
  else if match_property_keys env key BooleanProperty.TransmitsMTC.toCFStringRef then some .TransmitsMTC
  else if match_property_keys env key BooleanProperty.TransmitsNotes.toCFStringRef then some .TransmitsNotes
  else if match_property_keys env key BooleanProperty.TransmitsProgramChanges.toCFStringRef then some .TransmitsProgramChanges
  else if match_property_keys env key BooleanProperty.PanDisruptsStereo.toCFStringRef then some .PanDisruptsStereo
  else if match_property_keys env key BooleanProperty.IsSampler.toCFStringRef then some .IsSampler
  else if match_property_keys env key BooleanProperty.IsDrumMachine.toCFStringRef then some .IsDrumMachine
  else if match_property_keys env key BooleanProperty.IsMixer.toCFStringRef then some .IsMixer
  else if match_property_keys env key BooleanProperty.IsEffectUnit.toCFStringRef then some .IsEffectUnit
  else if match_property_keys env key BooleanProperty.SupportsShowControl.toCFStringRef then some .SupportsShowControl
  else none

/-- src/properties/mod.rs TypedPropertyKey: either one of the
CoreMIDI-defined property key constants or a custom property name. -/
inductive TypedPropertyKey (K : Type) where
  | Standard (constant : K)
  | Other (custom : CFString)
deriving DecidableEq

/-- TypedPropertyKey::custom of src/properties/mod.rs: wraps
CFString::new of the given text (the fresh allocation id is explicit). -/
def TypedPropertyKey.custom (K : Type) (allocId : Nat) (name : String) :
    TypedPropertyKey K :=
  .Other (CFString.new allocId name)

/-- The `From<String> for TypedPropertyKey<K>` impl of
src/properties/mod.rs: always goes through TypedPropertyKey::custom. -/
def TypedPropertyKey.fromString (K : Type) (allocId : Nat) (s : String) :
    TypedPropertyKey K :=
  TypedPropertyKey.custom K allocId s

/-- The `From<&str> for TypedPropertyKey<K>` impl of
src/properties/mod.rs: always goes through TypedPropertyKey::custom. -/
def TypedPropertyKey.fromStr (K : Type) (allocId : Nat) (s : String) :
    TypedPropertyKey K :=
  TypedPropertyKey.custom K allocId s

/-- TypedPropertyKey::as_string_ref of src/properties/mod.rs: the raw
reference passed to the native accessor. -/
def TypedPropertyKey.as_string_ref [StandardProperty K] :
    TypedPropertyKey K → CFStringRef
  | .Standard constant => StandardProperty.toCFStringRef constant
  | .Other custom => custom.as_concrete_TypeRef

/-- src/properties/string.rs: StringPropertyKey. -/
def StringPropertyKey := TypedPropertyKey StringProperty

/-- src/properties/boolean.rs: BooleanPropertyKey. -/
def BooleanPropertyKey := TypedPropertyKey BooleanProperty

/-- The name of a MIDI object property as returned from a notification
(src/properties/mod.rs PropertyName): wraps one raw key reference of
unknown provenance. -/
structure PropertyName where
  ref : CFStringRef
deriving DecidableEq

/-- src/properties/mod.rs ParsedPropertyName. -/
inductive ParsedPropertyName where
  | String (p : StringProperty)
  | Integer (p : IntegerProperty)
  | Boolean (p : BooleanProperty)
  | Other (s : String)
deriving DecidableEq

/-- PropertyName::parse of src/properties/mod.rs lines 193-202: tries the
String constants, then the Boolean constants, then the Integer constants,
and otherwise copies the text content into an owned String. -/
def PropertyName.parse (env : ConstantNames) (p : PropertyName) :
    ParsedPropertyName :=
  match StringProperty.try_from_constant_string_ref env p.ref with
  | some sp => .String sp
  | none =>
    match BooleanProperty.try_from_constant_string_ref env p.ref with
    | some bp => .Boolean bp
    | none =>
      match IntegerProperty.try_from_constant_string_ref env p.ref with
      | some ip => .Integer ip
      | none => .Other (p.ref.text env)

/-- PropertyName::matches of src/properties/mod.rs lines 206-212:
compares this property name to a standard constant through
match_property_keys. -/
def PropertyName.matches [StandardProperty P] (env : ConstantNames)
    (p : PropertyName) (property : P) : Bool :=
  match_property_keys env p.ref (StandardProperty.toCFStringRef property)

/-- The `PartialEq for PropertyName` impl of src/properties/mod.rs lines
216-222: match_property_keys on the two wrapped references. -/
def PropertyName.eqPropertyName (env : ConstantNames) (a b : PropertyName) :
    Bool :=
  match_property_keys env a.ref b.ref

/-- The `PartialEq<StringProperty> for PropertyName` impl. -/
def PropertyName.eqStringProperty (env : ConstantNames) (p : PropertyName)
    (other : StringProperty) : Bool :=
  p.matches env other

/-- The `PartialEq<IntegerProperty> for PropertyName` impl. -/
def PropertyName.eqIntegerProperty (env : ConstantNames) (p : PropertyName)
    (other : IntegerProperty) : Bool :=
  p.matches env other

/-- The `PartialEq<BooleanProperty> for PropertyName` impl. -/
def PropertyName.eqBooleanProperty (env : ConstantNames) (p : PropertyName)
    (other : BooleanProperty) : Bool :=
  p.matches env other

/-- The `PartialEq<PropertyName> for StringProperty` impl. -/
def StringProperty.eqPropertyName (env : ConstantNames) (self : StringProperty)
    (other : PropertyName) : Bool :=
  other.matches env self

/-- The `PartialEq<PropertyName> for IntegerProperty` impl. -/
def IntegerProperty.eqPropertyName (env : ConstantNames) (self : IntegerProperty)
    (other : PropertyName) : Bool :=
  other.matches env self

/-- The `PartialEq<PropertyName> for BooleanProperty` impl. -/
def BooleanProperty.eqPropertyName (env : ConstantNames) (self : BooleanProperty)
    (other : PropertyName) : Bool :=
  other.matches env self

/-- Modelled from the spec: the four native primitives of section 6, as a
record of pure functions over an abstract subsystem state σ.  A get takes
the state and returns the native status together with the produced value (a
text get may produce a null value, hence Option); a set returns the status
and the successor state.  Their code lives in CoreMIDI, outside this
repository. -/
structure Native (σ : Type) where
  getString : σ → Nat → CFStringRef → Int × Option String
  setString : σ → Nat → CFStringRef → String → Int × σ
  getInt : σ → Nat → CFStringRef → Int × Int
  setInt : σ → Nat → CFStringRef → Int → Int × σ

/-- Modelled from the spec: result_from_status of the crate root (not under
src/): section 7 says subsystem status codes are converted into structured
results, the status being propagated as the single opaque error value.  A
zero OSStatus is success; the value closure is only evaluated then. -/
def result_from_status (status : Int) (value : Unit → α) : Except Int α :=
  if status = 0 then .ok (value ()) else .error status

/-- Modelled from the spec: unit_result_from_status of the crate root (not
under src/), the unit-valued form of result_from_status. -/
def unit_result_from_status (status : Int) : Except Int Unit :=
  result_from_status status (fun _ => ())

/-- src/object.rs: Object, the opaque MIDIObjectRef wrapper (field 0). -/
structure Object where
  ref : Nat

/-- string_property_inner of src/properties/string.rs lines 84-95: calls
the native text get; on success a null produced reference becomes the empty
String, otherwise the text content is copied out. -/
def string_property_inner (n : Native σ) (st : σ) (object : Object)
    (key : CFStringRef) : Except Int String :=
  let r := n.getString st object.ref key
  result_from_status r.1 (fun _ =>
    match r.2 with
    | none => ""
    | some s => s)

/-- set_string_property_inner of src/properties/string.rs lines 97-106:
builds a transient CFString from the value and calls the native text set
(the native primitive receives the text content). -/
def set_string_property_inner (n : Native σ) (st : σ) (object : Object)
    (key : CFStringRef) (value : String) : Except Int Unit × σ :=
  let r := n.setString st object.ref key value
  (unit_result_from_status r.1, r.2)

/-- get_integer_property_inner of src/properties/integer.rs lines 98-107
(re-exported by src/properties/mod.rs as int_property_inner): direct
pass-through to the native 32-bit integer get. -/
def get_integer_property_inner (n : Native σ) (st : σ) (object : Object)
    (name : CFStringRef) : Except Int Int :=
  let r := n.getInt st object.ref name
  result_from_status r.1 (fun _ => r.2)

/-- set_integer_property_inner of src/properties/integer.rs lines 109-114
(re-exported by src/properties/mod.rs as set_int_property_inner): direct
pass-through to the native 32-bit integer set. -/
def set_integer_property_inner (n : Native σ) (st : σ) (object : Object)
    (name : CFStringRef) (value : Int) : Except Int Unit × σ :=
  (unit_result_from_status (n.setInt st object.ref name value).1,
   (n.setInt st object.ref name value).2)

/-- Object::string_property of src/object.rs lines 117-122. -/
def Object.string_property (n : Native σ) (st : σ) (o : Object)
    (key : TypedPropertyKey StringProperty) : Except Int String :=
  string_property_inner n st o key.as_string_ref

/-- Object::set_string_property of src/object.rs lines 96-102. -/
def Object.set_string_property (n : Native σ) (st : σ) (o : Object)
    (key : TypedPropertyKey StringProperty) (value : String) :
    Except Int Unit × σ :=
  set_string_property_inner n st o key.as_string_ref value

/-- Object::int_property of src/object.rs lines 159-164. -/
def Object.int_property (n : Native σ) (st : σ) (o : Object)
    (key : TypedPropertyKey IntegerProperty) : Except Int Int :=
  get_integer_property_inner n st o key.as_string_ref

/-- Object::set_int_property of src/object.rs lines 137-143. -/
def Object.set_int_property (n : Native σ) (st : σ) (o : Object)
    (key : TypedPropertyKey IntegerProperty) (value : Int) :
    Except Int Unit × σ :=
  set_integer_property_inner n st o key.as_string_ref value

/-- Object::bool_property of src/object.rs lines 206-211: the integer get
mapped through equality with 1. -/
def Object.bool_property (n : Native σ) (st : σ) (o : Object)
    (key : TypedPropertyKey BooleanProperty) : Except Int Bool :=
  Except.map (fun val => val == (1 : Int))
    (get_integer_property_inner n st o key.as_string_ref)

/-- Object::set_bool_property of src/object.rs lines 181-188: the integer
set with 1 for true and 0 for false. -/
def Object.set_bool_property (n : Native σ) (st : σ) (o : Object)
    (key : TypedPropertyKey BooleanProperty) (value : Bool) :
    Except Int Unit × σ :=
  set_integer_property_inner n st o key.as_string_ref
    (if value then 1 else 0)

/-- Object::name of src/object.rs lines 67-69: string_property at
StringProperty::Name with the error collapsed by Result::ok. -/
def Object.name (n : Native σ) (st : σ) (o : Object) : Option String :=
  match o.string_property n st (.Standard .Name) with
  | .ok v => some v
  | .error _ => none

/-- The `as u32` cast of an i32 value: reinterpretation of the 32-bit
pattern, i.e. the value modulo 2^32. -/
def i32_as_u32 (v : Int) : Int :=
  v % (2 ^ 32)

/-- Object::unique_id of src/object.rs lines 73-75: int_property at
IntegerProperty::UniqueId, error collapsed by Result::ok, the value then
cast with `as u32`. -/
def Object.unique_id (n : Native σ) (st : σ) (o : Object) : Option Int :=
  Option.map i32_as_u32
    (match o.int_property n st (.Standard .UniqueId) with
     | .ok v => some v
     | .error _ => none)

/-- Object::display_name of src/object.rs lines 79-81. -/
def Object.display_name (n : Native σ) (st : σ) (o : Object) : Option String :=
  match o.string_property n st (.Standard .DisplayName) with
  | .ok v => some v
  | .error _ => none

/-- The historical revision src/properties.rs TypedPropertyName: the same
Standard/Custom split as TypedPropertyKey with the owned variant named
Custom. -/
inductive TypedPropertyName (K : Type) where
  | Standard (constant : K)
  | Custom (custom : CFString)
deriving DecidableEq

/-- TypedPropertyName::custom of src/properties.rs lines 94-96. -/
def TypedPropertyName.custom (K : Type) (allocId : Nat) (name : String) :
    TypedPropertyName K :=
  .Custom (CFString.new allocId name)

/-- The `From<String> for TypedPropertyName<K>` impl of src/properties.rs
lines 117-123. -/
def TypedPropertyName.fromString (K : Type) (allocId : Nat) (s : String) :
    TypedPropertyName K :=
  TypedPropertyName.custom K allocId s

/-- The `From<&str> for TypedPropertyName<K>` impl of src/properties.rs
lines 125-131. -/
def TypedPropertyName.fromStr (K : Type) (allocId : Nat) (s : String) :
    TypedPropertyName K :=
  TypedPropertyName.custom K allocId s

/-- TypedPropertyName::as_string_ref of src/properties.rs lines 101-106. -/
def TypedPropertyName.as_string_ref [StandardProperty K] :
    TypedPropertyName K → CFStringRef
  | .Standard constant => StandardProperty.toCFStringRef constant
  | .Custom custom => custom.as_concrete_TypeRef

/-- get_string_property_inner of the historical revision src/properties.rs
lines 195-209: same native text get with the null-produced-value case
folded into the empty String. -/
def get_string_property_inner (n : Native σ) (st : σ) (object : Object)
    (name : TypedPropertyName StringProperty) : Except Int String :=
  let r := n.getString st object.ref name.as_string_ref
  result_from_status r.1 (fun _ =>
    match r.2 with
    | none => ""
    | some s => s)

/-- get_integer_property_inner_concrete of the historical revision
src/properties.rs lines 314-323. -/
def get_integer_property_inner_concrete (n : Native σ) (st : σ)
    (object : Object) (name : CFStringRef) : Except Int Int :=
  let r := n.getInt st object.ref name
  result_from_status r.1 (fun _ => r.2)

/-- set_integer_property_inner_concrete of the historical revision
src/properties.rs lines 333-338. -/
def set_integer_property_inner_concrete (n : Native σ) (st : σ)
    (object : Object) (name : CFStringRef) (value : Int) :
    Except Int Unit × σ :=
  (unit_result_from_status (n.setInt st object.ref name value).1,
   (n.setInt st object.ref name value).2)

/-- get_boolean_property_inner of the historical revision src/properties.rs
lines 467-472: the concrete integer get at the resolved key reference,
mapped through equality with 1. -/
def get_boolean_property_inner (n : Native σ) (st : σ) (object : Object)
    (name : TypedPropertyName BooleanProperty) : Except Int Bool :=
  Except.map (fun val => val == (1 : Int))
    (get_integer_property_inner_concrete n st object name.as_string_ref)

/-- set_boolean_property_inner of the historical revision src/properties.rs
lines 474-481: the concrete integer set with 1 for true and 0 for false. -/
def set_boolean_property_inner (n : Native σ) (st : σ) (object : Object)
    (name : TypedPropertyName BooleanProperty) (value : Bool) :
    Except Int Unit × σ :=
  set_integer_property_inner_concrete n st object name.as_string_ref
    (if value then 1 else 0)

/-- CoreMIDI status code kMIDIUnknownProperty, the failure a get of an
unset property reports; the exact value is immaterial to the claims, any
nonzero status denotes failure. -/
def kMIDIUnknownProperty : Int := -10835

/-- Modelled from the spec: the per-object property store the native
primitives of section 6 act on, keyed by object reference and raw key
reference (adequate for the same-key call sequences of the round-trip
properties of section 8). -/
structure MidiState where
  stringProps : Nat → CFStringRef → Option String
  intProps : Nat → CFStringRef → Option Int

/-- Modelled from the spec: the native primitives over MidiState.  A set
stores the value and succeeds (section 4.3: a set succeeds or fails
atomically per the single subsystem call; section 8 round-trips require the
stored value to be read back).  A get returns the stored value with a zero
status, or fails with kMIDIUnknownProperty when the property was never set
(section 8: reading a property never written returns an error, not a
default value). -/
def midiNative : Native MidiState where
  getString st obj key :=
    match st.stringProps obj key with
    | some v => (0, some v)
    | none => (kMIDIUnknownProperty, none)
  setString st obj key v :=
    (0, { st with stringProps := fun o k =>
            if o = obj && k = key then some v else st.stringProps o k })
  getInt st obj key :=
    match st.intProps obj key with
    | some v => (0, v)
    | none => (kMIDIUnknownProperty, 0)
  setInt st obj key v :=
    (0, { st with intProps := fun o k =>
            if o = obj && k = key then some v else st.intProps o k })

/-- src/object.rs ObjectType. -/
inductive ObjectType where
  | Other
  | Device
  | Entity
  | Source
  | Destination
  | ExternalDevice
  | ExternalEntity
  | ExternalSource
  | ExternalDestination
deriving DecidableEq

/-- The nine kMIDIObjectType_* constants src/object.rs imports from the
external coremidi_sys crate; their numeric values are external to the
repository, so ObjectType::from is stated over any assignment and the
witness instantiates the SDK values. -/
structure ObjectTypeConstants where
  other : Int
  device : Int
  entity : Int
  source : Int
  destination : Int
  externalDevice : Int
  externalEntity : Int
  externalSource : Int
  externalDestination : Int

/-- The nine constants in the order the match of ObjectType::from tries
them. -/
def ObjectTypeConstants.values (c : ObjectTypeConstants) : List Int :=
  [c.other, c.device, c.entity, c.source, c.destination,
   c.externalDevice, c.externalEntity, c.externalSource,
   c.externalDestination]

/-- ObjectType::from of src/object.rs lines 48-61: a match trying the nine
constants in declaration order, the fall-through arm returning the unknown
value as the error. -/
def ObjectType.from (c : ObjectTypeConstants) (value : Int) :
    Except Int ObjectType :=
  if value = c.other then .ok .Other
  else if value = c.device then .ok .Device
  else if value = c.entity then .ok .Entity
  else if value = c.source then .ok .Source
  else if value = c.destination then .ok .Destination
  else if value = c.externalDevice then .ok .ExternalDevice
  else if value = c.externalEntity then .ok .ExternalEntity
  else if value = c.externalSource then .ok .ExternalSource
  else if value = c.externalDestination then .ok .ExternalDestination
  else .error value

/-- The MIDIObjectType values of the CoreMIDI SDK, as generated into the
coremidi_sys crate: Other is -1, the internal kinds count from 0, the
external kinds carry the 0x10 external mask. -/
def coremidiObjectTypeConstants : ObjectTypeConstants :=
  ⟨-1, 0, 1, 2, 3, 16, 17, 18, 19⟩

/-- C1: Boolean property access is not a distinct native operation: for
every object handle and boolean key, bool_property is the integer get
mapped through equality with 1 (so any integer other than exactly 1 reads
back as false), and set_bool_property with value b is the integer set with
1 for true and 0 for false. -/
theorem claim_C1_boolean_via_integer (σ : Type) (n : Native σ) (st : σ)
    (o : Object) (key : TypedPropertyKey BooleanProperty) (b : Bool) :
    Object.bool_property n st o key =
      Except.map (fun v => v == (1 : Int))
        (get_integer_property_inner n st o key.as_string_ref) ∧
    Object.set_bool_property n st o key b =
      set_integer_property_inner n st o key.as_string_ref
        (if b then 1 else 0) ∧
    (∀ v : Int, get_integer_property_inner n st o key.as_string_ref = .ok v →
      v ≠ 1 → Object.bool_property n st o key = .ok false) := by
  refine ⟨rfl, rfl, ?_⟩
  intro v hv hne
  unfold Object.bool_property
  rw [hv]
  simp [Except.map, hne]

def boolWitnessNative : Native Unit where
  getString _ _ _ := (0, none)
  setString _ _ _ _ := (0, ())
  getInt _ _ _ := (0, 5)
  setInt _ _ _ _ := (0, ())

/-- C1 witness: under a native layer whose integer get yields 5, the
boolean read of the Offline key is false. -/
theorem claim_C1_witness :
    Object.bool_property boolWitnessNative () ⟨1⟩ (.Standard .Offline) = .ok false :=
  (claim_C1_boolean_via_integer Unit boolWitnessNative () ⟨1⟩
    (.Standard .Offline) true).2.2 5 rfl (by decide)

/-- A degenerate assignment of constant visible names, used only to state
concrete facts about owned (custom) references, whose text never consults
the assignment. -/
def plainNames : ConstantNames :=
  ⟨fun _ => "", fun _ => "", fun _ => ""⟩

/-- C3 counterexample: two independently-allocated owned references with
equal text are distinct allocations, yet the matcher returns true on them,
because the subsystem equality primitive compares content for owned
strings (spec sections 4.5, 8 and 9; the tests of src/properties/mod.rs
lines 364-372 and 394-402 depend on it).  This refutes "returns true iff
the two key references denote the same underlying allocation". -/
theorem claim_C3_counterexample :
    match_property_keys plainNames (.custom 0 "x") (.custom 1 "x") = true ∧
    CFStringRef.custom 0 "x" ≠ CFStringRef.custom 1 "x" := by
  refine ⟨?_, ?_⟩ <;> decide

/-- C3 (amended): the matcher returns false whenever either input is a
null/absent reference, and otherwise returns true iff the two key
references carry equal text content (the subsystem equality primitive; on
the standard constants, whose visible names are pairwise distinct, content
comparison coincides with reference identity). -/
theorem claim_C3_matcher_content (env : ConstantNames)
    (key1 key2 : CFStringRef) :
    match_property_keys env key1 key2 = true ↔
      key1 ≠ CFStringRef.null ∧ key2 ≠ CFStringRef.null ∧
        key1.text env = key2.text env := by
  unfold match_property_keys CFEqual
  cases key1 <;> cases key2 <;>
    simp [CFStringRef.is_null, CFStringRef.text]

/-- C5: when the native text get reports success with a null produced
value, the string getter yields Ok of the empty string; a success with a
value and a failure status pass through unchanged (the null case is the
only local rewriting), and the historical revision getter folds the same
null case the same way. -/
theorem claim_C5_null_text_success (σ : Type) (n : Native σ) (st : σ)
    (o : Object) (key : CFStringRef)
    (name : TypedPropertyName StringProperty) :
    (n.getString st o.ref key = (0, none) →
      string_property_inner n st o key = .ok "") ∧
    (∀ s, n.getString st o.ref key = (0, some s) →
      string_property_inner n st o key = .ok s) ∧
    (∀ e v, e ≠ 0 → n.getString st o.ref key = (e, v) →
      string_property_inner n st o key = .error e) ∧
    (n.getString st o.ref name.as_string_ref = (0, none) →
      get_string_property_inner n st o name = .ok "") := by
  refine ⟨?_, ?_, ?_, ?_⟩
  · intro h
    unfold string_property_inner
    rw [h]
    simp [result_from_status]
  · intro s h
    unfold string_property_inner
    rw [h]
    simp [result_from_status]
  · intro e v he h
    unfold string_property_inner
    rw [h]
    simp [result_from_status, he]
  · intro h
    unfold get_string_property_inner
    rw [h]
    simp [result_from_status]

def nullTextNative : Native Unit where
  getString _ _ _ := (0, none)
  setString _ _ _ _ := (0, ())
  getInt _ _ _ := (kMIDIUnknownProperty, 0)
  setInt _ _ _ _ := (0, ())

/-- C5 witness: under a native layer whose text get succeeds with a null
value, the string getter returns Ok of the empty string. -/
theorem claim_C5_witness :
    string_property_inner nullTextNative () ⟨1⟩ (.stringConst .Name) = .ok "" :=
  (claim_C5_null_text_success Unit nullTextNative () ⟨1⟩ (.stringConst .Name)
    (.Standard .Name)).1 rfl

/-- C9: the historical revision boolean accessors of src/properties.rs and
the current Object boolean accessors of src/object.rs compute the same
results over every native layer, object handle, standard boolean key and
value. -/
theorem claim_C9_revisions_equivalent (σ : Type) (n : Native σ) (st : σ)
    (o : Object) (k : BooleanProperty) (b : Bool) :
    get_boolean_property_inner n st o (.Standard k) =
      Object.bool_property n st o (.Standard k) ∧
    set_boolean_property_inner n st o (.Standard k) b =
      Object.set_bool_property n st o (.Standard k) b :=
  ⟨rfl, rfl⟩

/-- When the two references carry different text, the matcher returns
false whatever the null checks say. -/
lemma mpk_ne_text (env : ConstantNames) {key1 key2 : CFStringRef}
    (h : key1.text env ≠ key2.text env) :
    match_property_keys env key1 key2 = false := by
  unfold match_property_keys CFEqual
  simp [beq_eq_false_iff_ne.mpr h]

/-- Under a kind-injective assignment, the matcher on two String-kind
constants decides equality of the variants. -/
lemma mpk_string_string (env : ConstantNames)
    (hS : Function.Injective env.stringName) (p q : StringProperty) :
    match_property_keys env (.stringConst p) (.stringConst q) =
      decide (p = q) := by
  by_cases h : p = q
  · subst h
    simp [match_property_keys, CFStringRef.is_null, CFEqual, CFStringRef.text]
  · have hne : env.stringName p ≠ env.stringName q := fun hc => h (hS hc)
    simp [match_property_keys, CFStringRef.is_null, CFEqual, CFStringRef.text,
      h, beq_eq_false_iff_ne.mpr hne]

/-- Under a kind-injective assignment, the matcher on two Boolean-kind
constants decides equality of the variants. -/
lemma mpk_bool_bool (env : ConstantNames)
    (hB : Function.Injective env.boolName) (p q : BooleanProperty) :
    match_property_keys env (.boolConst p) (.boolConst q) =
      decide (p = q) := by
  by_cases h : p = q
  · subst h
    simp [match_property_keys, CFStringRef.is_null, CFEqual, CFStringRef.text]
  · have hne : env.boolName p ≠ env.boolName q := fun hc => h (hB hc)
    simp [match_property_keys, CFStringRef.is_null, CFEqual, CFStringRef.text,
      h, beq_eq_false_iff_ne.mpr hne]

/-- Under a kind-injective assignment, the matcher on two Integer-kind
constants decides equality of the variants. -/
lemma mpk_int_int (env : ConstantNames)
    (hI : Function.Injective env.intName) (p q : IntegerProperty) :
    match_property_keys env (.intConst p) (.intConst q) =
      decide (p = q) := by
  by_cases h : p = q
  · subst h
    simp [match_property_keys, CFStringRef.is_null, CFEqual, CFStringRef.text]
  · have hne : env.intName p ≠ env.intName q := fun hc => h (hI hc)
    simp [match_property_keys, CFStringRef.is_null, CFEqual, CFStringRef.text,
      h, beq_eq_false_iff_ne.mpr hne]

/-- The String-kind scan finds each String-kind constant. -/
lemma scan_string_hits (env : ConstantNames)
    (hS : Function.Injective env.stringName) (p : StringProperty) :
    StringProperty.try_from_constant_string_ref env (.stringConst p) =
      some p := by
  have hh := mpk_string_string env hS p
  cases p <;>
    simp only [StringProperty.try_from_constant_string_ref,
      StringProperty.toCFStringRef, hh] <;> decide

/-- The Boolean-kind scan finds each Boolean-kind constant. -/
lemma scan_bool_hits (env : ConstantNames)
    (hB : Function.Injective env.boolName) (p : BooleanProperty) :
    BooleanProperty.try_from_constant_string_ref env (.boolConst p) =
      some p := by
  have hh := mpk_bool_bool env hB p
  cases p <;>
    simp only [BooleanProperty.try_from_constant_string_ref,
      BooleanProperty.toCFStringRef, hh] <;> decide

/-- The Integer-kind scan finds each Integer-kind constant. -/
lemma scan_int_hits (env : ConstantNames)
    (hI : Function.Injective env.intName) (p : IntegerProperty) :
    IntegerProperty.try_from_constant_string_ref env (.intConst p) =
      some p := by
  have hh := mpk_int_int env hI p
  cases p <;>
    simp only [IntegerProperty.try_from_constant_string_ref,
      IntegerProperty.toCFStringRef, hh] <;> decide

/-- The String-kind scan misses every Boolean-kind constant when the kinds
carry disjoint visible names. -/
lemma scan_string_misses_bool (env : ConstantNames)
    (hBS : ∀ (b : BooleanProperty) (k : StringProperty),
      env.boolName b ≠ env.stringName k) (p : BooleanProperty) :
    StringProperty.try_from_constant_string_ref env (.boolConst p) =
      none := by
  have hh : ∀ q : StringProperty,
      match_property_keys env (.boolConst p) (.stringConst q) = false :=
    fun q => mpk_ne_text env (hBS p q)
  simp only [StringProperty.try_from_constant_string_ref,
    StringProperty.toCFStringRef, hh]
  decide

/-- The String-kind scan misses every Integer-kind constant when the kinds
carry disjoint visible names. -/
lemma scan_string_misses_int (env : ConstantNames)
    (hIS : ∀ (i : IntegerProperty) (k : StringProperty),
      env.intName i ≠ env.stringName k) (p : IntegerProperty) :
    StringProperty.try_from_constant_string_ref env (.intConst p) =
      none := by
  have hh : ∀ q : StringProperty,
      match_property_keys env (.intConst p) (.stringConst q) = false :=
    fun q => mpk_ne_text env (hIS p q)
  simp only [StringProperty.try_from_constant_string_ref,
    StringProperty.toCFStringRef, hh]
  decide

/-- The Boolean-kind scan misses every Integer-kind constant when the
kinds carry disjoint visible names. -/
lemma scan_bool_misses_int (env : ConstantNames)
    (hIB : ∀ (i : IntegerProperty) (k : BooleanProperty),
      env.intName i ≠ env.boolName k) (p : IntegerProperty) :
    BooleanProperty.try_from_constant_string_ref env (.intConst p) =
      none := by
  have hh : ∀ q : BooleanProperty,
      match_property_keys env (.intConst p) (.boolConst q) = false :=
    fun q => mpk_ne_text env (hIB p q)
  simp only [BooleanProperty.try_from_constant_string_ref,
    BooleanProperty.toCFStringRef, hh]
  decide

/-- The String-kind scan misses an owned key whose text is none of the
String-kind visible names. -/
lemma scan_string_misses_custom (env : ConstantNames) (allocId : Nat)
    (s : String) (h : ∀ k : StringProperty, s ≠ env.stringName k) :
    StringProperty.try_from_constant_string_ref env (.custom allocId s) =
      none := by
  have hh : ∀ q : StringProperty,
      match_property_keys env (.custom allocId s) (.stringConst q) = false :=
    fun q => mpk_ne_text env (h q)
  simp only [StringProperty.try_from_constant_string_ref,
    StringProperty.toCFStringRef, hh]
  decide

/-- The Boolean-kind scan misses an owned key whose text is none of the
Boolean-kind visible names. -/
lemma scan_bool_misses_custom (env : ConstantNames) (allocId : Nat)
    (s : String) (h : ∀ k : BooleanProperty, s ≠ env.boolName k) :
    BooleanProperty.try_from_constant_string_ref env (.custom allocId s) =
      none := by
  have hh : ∀ q : BooleanProperty,
      match_property_keys env (.custom allocId s) (.boolConst q) = false :=
    fun q => mpk_ne_text env (h q)
  simp only [BooleanProperty.try_from_constant_string_ref,
    BooleanProperty.toCFStringRef, hh]
  decide

/-- The Integer-kind scan misses an owned key whose text is none of the
Integer-kind visible names. -/
lemma scan_int_misses_custom (env : ConstantNames) (allocId : Nat)
    (s : String) (h : ∀ k : IntegerProperty, s ≠ env.intName k) :
    IntegerProperty.try_from_constant_string_ref env (.custom allocId s) =
      none := by
  have hh : ∀ q : IntegerProperty,
      match_property_keys env (.custom allocId s) (.intConst q) = false :=
    fun q => mpk_ne_text env (h q)
  simp only [IntegerProperty.try_from_constant_string_ref,
    IntegerProperty.toCFStringRef, hh]
  decide

/-- C2: PropertyName::parse tries the String constants first, then the
Boolean constants, then the Integer constants, returning the matching
variant of the matching kind on the raw reference of every standard
constant, and classifies an owned key whose text is no visible name of any
kind as Other of exactly its text.  The hypotheses are the subsystem
guarantee (spec sections 2, 4.5 and 6) that distinct logical keys are
distinct: visible names injective within each kind and disjoint across
kinds. -/
theorem claim_C2_parse_classification (env : ConstantNames)
    (hS : Function.Injective env.stringName)
    (hB : Function.Injective env.boolName)
    (hI : Function.Injective env.intName)
    (hBS : ∀ (b : BooleanProperty) (k : StringProperty),
      env.boolName b ≠ env.stringName k)
    (hIS : ∀ (i : IntegerProperty) (k : StringProperty),
      env.intName i ≠ env.stringName k)
    (hIB : ∀ (i : IntegerProperty) (k : BooleanProperty),
      env.intName i ≠ env.boolName k) :
    (∀ p : StringProperty,
      PropertyName.parse env ⟨p.toCFStringRef⟩ = .String p) ∧
    (∀ p : BooleanProperty,
      PropertyName.parse env ⟨p.toCFStringRef⟩ = .Boolean p) ∧
    (∀ p : IntegerProperty,
      PropertyName.parse env ⟨p.toCFStringRef⟩ = .Integer p) ∧
    (∀ (allocId : Nat) (s : String),
      (∀ k : StringProperty, s ≠ env.stringName k) →
      (∀ k : BooleanProperty, s ≠ env.boolName k) →
      (∀ k : IntegerProperty, s ≠ env.intName k) →
      PropertyName.parse env ⟨.custom allocId s⟩ = .Other s) := by
  refine ⟨?_, ?_, ?_, ?_⟩
  · intro p
    simp only [PropertyName.parse, StringProperty.toCFStringRef,
      scan_string_hits env hS p]
  · intro p
    simp only [PropertyName.parse, BooleanProperty.toCFStringRef,
      scan_string_misses_bool env hBS p, scan_bool_hits env hB p]
  · intro p
    simp only [PropertyName.parse, IntegerProperty.toCFStringRef,
      scan_string_misses_int env hIS p, scan_bool_misses_int env hIB p,
      scan_int_hits env hI p]
  · intro allocId s h1 h2 h3
    simp only [PropertyName.parse, scan_string_misses_custom env allocId s h1,
      scan_bool_misses_custom env allocId s h2,
      scan_int_misses_custom env allocId s h3]
    rfl

/-- An injective assignment of constant visible names, distinct within and
across the three kinds, used to discharge the distinctness hypotheses; the
true visible names are external data, and any assignment satisfying the
subsystem guarantee serves the witness. -/
def witnessNames : ConstantNames where
  stringName p :=
    match p with
    | .Name => "string:Name"
    | .Manufacturer => "string:Manufacturer"
    | .Model => "string:Model"
    | .DriverOwner => "string:DriverOwner"
    | .DriverDeviceEditorApp => "string:DriverDeviceEditorApp"
    | .DisplayName => "string:DisplayName"
  intName p :=
    match p with
    | .DeviceId => "int:DeviceId"
    | .UniqueId => "int:UniqueId"
    | .ReceiveChannels => "int:ReceiveChannels"
    | .TransmitChannels => "int:TransmitChannels"
    | .MaxSysExSpeed => "int:MaxSysExSpeed"
    | .AdvanceScheduleTimeMuSec => "int:AdvanceScheduleTimeMuSec"
    | .SingleRealtimeEntity => "int:SingleRealtimeEntity"
    | .ConnectionUniqueId => "int:ConnectionUniqueId"
    | .DriverVersion => "int:DriverVersion"
    | .MaxRecieveChannels => "int:MaxRecieveChannels"
    | .MaxTransmitChannels => "int:MaxTransmitChannels"
  boolName p :=
    match p with
    | .IsEmbeddedEntity => "bool:IsEmbeddedEntity"
    | .IsBroadcast => "bool:IsBroadcast"
    | .Offline => "bool:Offline"
    | .Private => "bool:Private"
    | .SupportsGeneralMIDI => "bool:SupportsGeneralMIDI"
    | .SupportsMMC => "bool:SupportsMMC"
    | .CanRoute => "bool:CanRoute"
    | .ReceivesClock => "bool:ReceivesClock"
    | .ReceivesMTC => "bool:ReceivesMTC"
    | .ReceivesNotes => "bool:ReceivesNotes"
    | .ReceivesProgramChanges => "bool:ReceivesProgramChanges"
    | .ReceivesBankSelectMSB => "bool:ReceivesBankSelectMSB"
    | .ReceivesBankSelectLSB => "bool:ReceivesBankSelectLSB"
    | .TransmitsBankSelectMSB => "bool:TransmitsBankSelectMSB"
    | .TransmitsBankSelectLSB => "bool:TransmitsBankSelectLSB"
    | .TransmitsClock => "bool:TransmitsClock"
    | .TransmitsMTC => "bool:TransmitsMTC"
    | .TransmitsNotes => "bool:TransmitsNotes"
    | .TransmitsProgramChanges => "bool:TransmitsProgramChanges"
    | .PanDisruptsStereo => "bool:PanDisruptsStereo"
    | .IsSampler => "bool:IsSampler"
    | .IsDrumMachine => "bool:IsDrumMachine"
    | .IsMixer => "bool:IsMixer"
    | .IsEffectUnit => "bool:IsEffectUnit"
    | .SupportsShowControl => "bool:SupportsShowControl"

/-- C2 witness: at an injective assignment of visible names, the raw
reference of the Offline boolean constant parses to Boolean(Offline), and
an owned key whose text is none of the visible names parses to Other of
exactly that text. -/
theorem claim_C2_witness :
    PropertyName.parse witnessNames ⟨BooleanProperty.Offline.toCFStringRef⟩ =
      .Boolean .Offline ∧
    PropertyName.parse witnessNames ⟨.custom 7 "com_example_custom"⟩ =
      .Other "com_example_custom" := by
  have h := claim_C2_parse_classification witnessNames (by decide) (by decide)
    (by decide) (by decide) (by decide) (by decide)
  exact ⟨h.2.1 .Offline, h.2.2.2 7 "com_example_custom"
    (by decide) (by decide) (by decide)⟩

/-- C4: equality between a PropertyName and any standard key of any of the
three kinds, and between two PropertyNames, is defined as the identity
matcher applied to their raw key references, never as Rust-level string
comparison of the wrappers; two names are equal only if the underlying
subsystem check holds, and for two names wrapping equal-text but
independently-allocated owned references that check does hold (the Custom
path reduces to the subsystem string-equality primitive) while it fails on
differing text. -/
theorem claim_C4_equality_is_identity_matching (env : ConstantNames) :
    (∀ (p : PropertyName) (k : StringProperty),
      PropertyName.eqStringProperty env p k =
        match_property_keys env p.ref k.toCFStringRef ∧
      StringProperty.eqPropertyName env k p =
        match_property_keys env p.ref k.toCFStringRef) ∧
    (∀ (p : PropertyName) (k : IntegerProperty),
      PropertyName.eqIntegerProperty env p k =
        match_property_keys env p.ref k.toCFStringRef ∧
      IntegerProperty.eqPropertyName env k p =
        match_property_keys env p.ref k.toCFStringRef) ∧
    (∀ (p : PropertyName) (k : BooleanProperty),
      PropertyName.eqBooleanProperty env p k =
        match_property_keys env p.ref k.toCFStringRef ∧
      BooleanProperty.eqPropertyName env k p =
        match_property_keys env p.ref k.toCFStringRef) ∧
    (∀ a b : PropertyName,
      PropertyName.eqPropertyName env a b =
        match_property_keys env a.ref b.ref) ∧
    (∀ a b : PropertyName, PropertyName.eqPropertyName env a b = true →
      match_property_keys env a.ref b.ref = true) ∧
    (PropertyName.eqPropertyName env
       ⟨.custom 0 "offline"⟩ ⟨.custom 1 "offline"⟩ = true ∧
     CFStringRef.custom 0 "offline" ≠ CFStringRef.custom 1 "offline" ∧
     PropertyName.eqPropertyName env
       ⟨.custom 0 "abc"⟩ ⟨.custom 1 "xyz"⟩ = false) := by
  refine ⟨fun p k => ⟨rfl, rfl⟩, fun p k => ⟨rfl, rfl⟩, fun p k => ⟨rfl, rfl⟩,
    fun a b => rfl, fun a b h => h, rfl, by decide, rfl⟩

/-- C6: against the subsystem store, a set of a string property followed by
a get of the same key on the same object yields Ok of the value just set,
and likewise for integer properties, for standard and custom keys alike. -/
theorem claim_C6_roundtrip (st : MidiState) (o : Object)
    (skey : TypedPropertyKey StringProperty) (v : String)
    (ikey : TypedPropertyKey IntegerProperty) (i : Int) :
    (Object.set_string_property midiNative st o skey v).1 = .ok () ∧
    Object.string_property midiNative
      (Object.set_string_property midiNative st o skey v).2 o skey = .ok v ∧
    (Object.set_int_property midiNative st o ikey i).1 = .ok () ∧
    Object.int_property midiNative
      (Object.set_int_property midiNative st o ikey i).2 o ikey = .ok i := by
  refine ⟨rfl, ?_, rfl, ?_⟩ <;>
    simp [Object.string_property, Object.set_string_property,
          string_property_inner, set_string_property_inner,
          Object.int_property, Object.set_int_property,
          get_integer_property_inner, set_integer_property_inner,
          midiNative, result_from_status, unit_result_from_status]

/-- C7: building a typed property key from a String or a string slice
always succeeds, always yields the owned Custom/Other variant holding an
allocation of exactly that text, and never the Standard variant, in both
the current TypedPropertyKey and the historical TypedPropertyName. -/
theorem claim_C7_from_string_always_custom (allocId : Nat) (s : String) :
    (TypedPropertyKey.fromString StringProperty allocId s =
       .Other (CFString.new allocId s) ∧
     TypedPropertyKey.fromStr StringProperty allocId s =
       .Other (CFString.new allocId s) ∧
     (∀ k : StringProperty,
       TypedPropertyKey.fromString StringProperty allocId s ≠ .Standard k)) ∧
    (TypedPropertyKey.fromString IntegerProperty allocId s =
       .Other (CFString.new allocId s) ∧
     TypedPropertyKey.fromStr IntegerProperty allocId s =
       .Other (CFString.new allocId s) ∧
     (∀ k : IntegerProperty,
       TypedPropertyKey.fromString IntegerProperty allocId s ≠ .Standard k)) ∧
    (TypedPropertyKey.fromString BooleanProperty allocId s =
       .Other (CFString.new allocId s) ∧
     TypedPropertyKey.fromStr BooleanProperty allocId s =
       .Other (CFString.new allocId s) ∧
     (∀ k : BooleanProperty,
       TypedPropertyKey.fromString BooleanProperty allocId s ≠ .Standard k)) ∧
    (CFString.new allocId s).content = s ∧
    (TypedPropertyName.fromString StringProperty allocId s =
       .Custom (CFString.new allocId s) ∧
     TypedPropertyName.fromStr StringProperty allocId s =
       .Custom (CFString.new allocId s) ∧
     (∀ k : StringProperty,
       TypedPropertyName.fromString StringProperty allocId s ≠ .Standard k)) := by
  refine ⟨⟨rfl, rfl, ?_⟩, ⟨rfl, rfl, ?_⟩, ⟨rfl, rfl, ?_⟩, rfl, rfl, rfl, ?_⟩ <;>
    intro k h <;> cases h

def negUniqueIdNative : Native Unit where
  getString _ _ _ := (kMIDIUnknownProperty, none)
  setString _ _ _ _ := (0, ())
  getInt _ _ _ := (0, -1)
  setInt _ _ _ _ := (0, ())

/-- C8 counterexample: under a native layer whose integer get yields -1,
the typed accessor at UniqueId returns Ok(-1) yet unique_id does not
return Some(-1): the i32 value is cast with `as u32` first, producing
Some(4294967295), so unique_id is not exactly the typed get with the error
collapsed to None. -/
theorem claim_C8_counterexample :
    Object.int_property negUniqueIdNative () ⟨1⟩ (.Standard .UniqueId)
      = .ok (-1) ∧
    Object.unique_id negUniqueIdNative () ⟨1⟩ ≠ some (-1) ∧
    Object.unique_id negUniqueIdNative () ⟨1⟩ = some 4294967295 := by
  refine ⟨rfl, ?_, ?_⟩ <;> decide

/-- C8 (amended): name() and display_name() are exactly the typed string
get at StandardKey Name / DisplayName with the error collapsed to None;
unique_id() is the typed integer get at UniqueId with the error collapsed
to None and the value reinterpreted as an unsigned 32-bit integer
(value mod 2^32). -/
theorem claim_C8_convenience_reads (σ : Type) (n : Native σ) (st : σ)
    (o : Object) :
    (∀ v, Object.name n st o = some v ↔
       Object.string_property n st o (.Standard .Name) = .ok v) ∧
    (Object.name n st o = none ↔
       ∃ e, Object.string_property n st o (.Standard .Name) = .error e) ∧
    (∀ v, Object.display_name n st o = some v ↔
       Object.string_property n st o (.Standard .DisplayName) = .ok v) ∧
    (Object.display_name n st o = none ↔
       ∃ e, Object.string_property n st o (.Standard .DisplayName) = .error e) ∧
    (∀ u, Object.unique_id n st o = some u ↔
       ∃ v, Object.int_property n st o (.Standard .UniqueId) = .ok v ∧
         u = i32_as_u32 v) ∧
    (Object.unique_id n st o = none ↔
       ∃ e, Object.int_property n st o (.Standard .UniqueId) = .error e) := by
  refine ⟨?_, ?_, ?_, ?_, ?_, ?_⟩
  · intro v
    unfold Object.name
    cases h : Object.string_property n st o (.Standard .Name) <;> simp
  · unfold Object.name
    cases h : Object.string_property n st o (.Standard .Name) <;> simp
  · intro v
    unfold Object.display_name
    cases h : Object.string_property n st o (.Standard .DisplayName) <;> simp
  · unfold Object.display_name
    cases h : Object.string_property n st o (.Standard .DisplayName) <;> simp
  · intro u
    unfold Object.unique_id
    cases h : Object.int_property n st o (.Standard .UniqueId) <;>
      simp [eq_comm]
  · unfold Object.unique_id
    cases h : Object.int_property n st o (.Standard .UniqueId) <;> simp

/-- C10: ObjectType::from returns Ok of the corresponding variant exactly
on the nine object-type constants, and Err carrying the input unchanged on
every other value, whenever the nine constants are pairwise distinct (as
the SDK values are). -/
theorem claim_C10_object_type_from (c : ObjectTypeConstants)
    (hnd : c.values.Nodup) :
    (∀ value : Int, value ∉ c.values →
      ObjectType.from c value = .error value) ∧
    ObjectType.from c c.other = .ok .Other ∧
    ObjectType.from c c.device = .ok .Device ∧
    ObjectType.from c c.entity = .ok .Entity ∧
    ObjectType.from c c.source = .ok .Source ∧
    ObjectType.from c c.destination = .ok .Destination ∧
    ObjectType.from c c.externalDevice = .ok .ExternalDevice ∧
    ObjectType.from c c.externalEntity = .ok .ExternalEntity ∧
    ObjectType.from c c.externalSource = .ok .ExternalSource ∧
    ObjectType.from c c.externalDestination = .ok .ExternalDestination := by
  simp only [ObjectTypeConstants.values, List.nodup_cons, List.mem_cons,
    List.not_mem_nil, or_false, not_or, List.nodup_nil, and_true] at hnd
  obtain ⟨⟨h12, h13, h14, h15, h16, h17, h18, h19⟩,
          ⟨h23, h24, h25, h26, h27, h28, h29⟩,
          ⟨h34, h35, h36, h37, h38, h39⟩,
          ⟨h45, h46, h47, h48, h49⟩,
          ⟨h56, h57, h58, h59⟩,
          ⟨h67, h68, h69⟩,
          ⟨h78, h79⟩,
          h89, -⟩ := hnd
  refine ⟨?_, ?_, ?_, ?_, ?_, ?_, ?_, ?_, ?_, ?_⟩
  · intro value hv
    simp only [ObjectTypeConstants.values, List.mem_cons, List.not_mem_nil,
      or_false, not_or] at hv
    obtain ⟨g1, g2, g3, g4, g5, g6, g7, g8, g9⟩ := hv
    simp [ObjectType.from, g1, g2, g3, g4, g5, g6, g7, g8, g9]
  · simp [ObjectType.from]
  · simp [ObjectType.from, Ne.symm h12]
  · simp [ObjectType.from, Ne.symm h13, Ne.symm h23]
  · simp [ObjectType.from, Ne.symm h14, Ne.symm h24, Ne.symm h34]
  · simp [ObjectType.from, Ne.symm h15, Ne.symm h25, Ne.symm h35,
      Ne.symm h45]
  · simp [ObjectType.from, Ne.symm h16, Ne.symm h26, Ne.symm h36,
      Ne.symm h46, Ne.symm h56]
  · simp [ObjectType.from, Ne.symm h17, Ne.symm h27, Ne.symm h37,
      Ne.symm h47, Ne.symm h57, Ne.symm h67]
  · simp [ObjectType.from, Ne.symm h18, Ne.symm h28, Ne.symm h38,
      Ne.symm h48, Ne.symm h58, Ne.symm h68, Ne.symm h78]
  · simp [ObjectType.from, Ne.symm h19, Ne.symm h29, Ne.symm h39,
      Ne.symm h49, Ne.symm h59, Ne.symm h69, Ne.symm h79, Ne.symm h89]

/-- C10 witness: at the SDK constant values, -1 maps to Other, 0 to
Device, 19 to ExternalDestination, and the out-of-range 65535 comes back
unchanged as the error. -/
theorem claim_C10_witness :
    ObjectType.from coremidiObjectTypeConstants (-1) = .ok .Other ∧
    ObjectType.from coremidiObjectTypeConstants 0 = .ok .Device ∧
    ObjectType.from coremidiObjectTypeConstants 19
      = .ok .ExternalDestination ∧
    ObjectType.from coremidiObjectTypeConstants 65535 = .error 65535 := by
  have h := claim_C10_object_type_from coremidiObjectTypeConstants (by decide)
  exact ⟨h.2.1, h.2.2.1, h.2.2.2.2.2.2.2.2.2, h.1 65535 (by decide)⟩
